import Mathlib

/-!
Verification of the sales-aggregation core of the slack-claude-bot repository,
as implemented in `lightspeed-intelligence.js` (class `LightspeedIntelligence`).

Modelling conventions for the shallow embedding:

* JS numbers holding money or quantities are modelled as `ℚ`; transaction
  counts are `ℕ`.  (`parseFloat` of an absent field defaulted with `|| 0`
  becomes `Option.getD _ 0`.)
* A JS field that may be absent is an `Option`.
* The Lightspeed API returns a nested resource either unwrapped (single
  record), as an array (zero or many records), or not at all; this
  single-vs-collection shape is the inductive `JsArr`, and the repeated
  normalization ternary `Array.isArray(x) ? x : (x ? [x] : [])` is
  `JsArr.toList` (and `normalizeSales` at the `getSales` boundary).
* `new Date(sale.completeTime).getHours()` yields an hour in 0..23 for any
  parseable timestamp, so the completion hour of a sale is embedded as
  `Fin 24`.
* The JS object used as a string-keyed map (`channels`, `productSales`) is
  embedded as an association list in insertion order.  JS enumeration order
  of integer-like keys differs from insertion order, but that order is only
  observable through tie-breaking of the final revenue sort, which no
  property below depends on.
-/

namespace Lightspeed

/-- Single-vs-collection-vs-absent shape of a nested resource in a
Lightspeed JSON response (`data.Sale`, `sale.SaleLines.SaleLine`). -/
inductive JsArr (α : Type) where
  | missing : JsArr α
  | single (a : α) : JsArr α
  | collection (xs : List α) : JsArr α
deriving DecidableEq

/-- The normalization ternary `Array.isArray(x) ? x : (x ? [x] : [])` used on
`SaleLines.SaleLine` in `getTopProducts` (lines 138-140) and
`getSalesMetrics` (lines 197-199). -/
def JsArr.toList {α : Type} : JsArr α → List α
  | .missing => []
  | .single a => [a]
  | .collection xs => xs

/-- JS `s.toLowerCase()` restricted to the character data of the string. -/
def jsToLower (s : String) : String := ⟨s.data.map Char.toLower⟩

/-- Whitespace characters relevant to JS `trim()` for the inputs at hand. -/
def isJsSpace (c : Char) : Bool := c == ' ' || c == '\t' || c == '\n' || c == '\r'

/-- JS `s.trim()`: strip whitespace from both ends. -/
def jsTrim (s : String) : String :=
  ⟨((s.data.dropWhile isJsSpace).reverse.dropWhile isJsSpace).reverse⟩

/-- Does the character list start with the given chunk? -/
def chunkStartsWith : List Char → List Char → Bool
  | _, [] => true
  | [], _ :: _ => false
  | a :: as, b :: bs => a == b && chunkStartsWith as bs

/-- Does the character list contain the given chunk contiguously? -/
def chunkContains : List Char → List Char → Bool
  | [], t => t.isEmpty
  | s@(_ :: rest), t => chunkStartsWith s t || chunkContains rest t

/-- JS `s.includes(t)`. -/
def jsIncludes (s t : String) : Bool := chunkContains s.data t.data

/-- Customer sub-resource attached to a sale (`sale.Customer`). -/
structure Customer where
  firstName : Option String
  lastName : Option String
deriving DecidableEq

/-- One line of a sale (`SaleLines.SaleLine` entry), with the nested item
description (`line.Item?.description`). -/
structure SaleLine where
  itemID : String
  unitQuantity : Option ℚ
  calcSubtotal : Option ℚ
  fifoCost : Option ℚ
  avgCost : Option ℚ
  itemDescription : Option String
deriving DecidableEq

/-- A raw transaction from the POS API.  `voided` is the raw string field
compared against the string "true" in the source; `completeHour` embeds the
hour-of-day of `completeTime`. -/
structure Sale where
  voided : Option String
  calcTotal : Option ℚ
  completeHour : Fin 24
  customer : Option Customer
  saleLines : JsArr SaleLine
deriving DecidableEq

/-- `classifyChannel(sale)` (lines 237-250): no customer is In-Store,
otherwise case-fold and concatenate first and last name and match
substrings against the fixed platform list. -/
def classifyChannel (sale : Sale) : String :=
  match sale.customer with
  | none => "In-Store"
  | some c =>
    let firstName := jsToLower (c.firstName.getD "")
    let lastName := jsToLower (c.lastName.getD "")
    let fullName := jsTrim (firstName ++ " " ++ lastName)
    if jsIncludes fullName "ubereats" || jsIncludes fullName "uber eats" then "UberEats"
    else if jsIncludes fullName "doordash" || firstName == "doordash" then "DoorDash"
    else if jsIncludes fullName "grubhub" then "GrubHub"
    else if jsIncludes fullName "cityhive" then "CityHive"
    else "In-Store"

/-- The shape normalization at the `getSales` boundary (line 89):
`Array.isArray(data.Sale) ? data.Sale : (data.Sale ? [data.Sale] : [])`. -/
def normalizeSales (dataSale : JsArr Sale) : List Sale :=
  match dataSale with
  | .collection xs => xs
  | .single s => [s]
  | .missing => []

/-- Mutable accumulator state of the `sales.forEach` loop in
`getSalesMetrics` (lines 173-178). -/
structure MetricsAcc where
  totalRevenue : ℚ
  totalCost : ℚ
  totalTransactions : Nat
  totalItems : ℚ
  channels : List (String × Nat)
  hourly : List Nat
deriving DecidableEq

/-- Initial accumulator: zeros and `Array(24).fill(0)`. -/
def initAcc : MetricsAcc :=
  { totalRevenue := 0, totalCost := 0, totalTransactions := 0, totalItems := 0,
    channels := [], hourly := List.replicate 24 0 }

/-- `channels[channel] = (channels[channel] || 0) + 1` on the association
list embedding of the JS object (line 190). -/
def bumpChannel : List (String × Nat) → String → List (String × Nat)
  | [], c => [(c, 1)]
  | (k, n) :: rest, c =>
    if k = c then (k, n + 1) :: rest else (k, n) :: bumpChannel rest c

/-- `hourly[hour]++` (line 194). -/
def bumpHour (hourly : List Nat) (h : Fin 24) : List Nat :=
  hourly.set h.val (hourly.getD h.val 0 + 1)

/-- Body of the inner `lines.forEach` in `getSalesMetrics` (lines 201-209):
accumulate revenue, cost (`fifoCost || avgCost || 0` times quantity) and
item count. -/
def lineStep (acc : MetricsAcc) (line : SaleLine) : MetricsAcc :=
  let qty := line.unitQuantity.getD 0
  let revenue := line.calcSubtotal.getD 0
  let cost := (line.fifoCost.getD (line.avgCost.getD 0)) * qty
  { acc with
      totalRevenue := acc.totalRevenue + revenue
      totalCost := acc.totalCost + cost
      totalItems := acc.totalItems + qty }

/-- Body of the outer `sales.forEach` in `getSalesMetrics` (lines 180-211).
Both early `return` statements (voided equal to "true", `total <= 0`) leave the
whole callback, so a sale they hit contributes to no accumulator at all --
including the line-item accumulation further down the same callback. -/
def msStep (acc : MetricsAcc) (sale : Sale) : MetricsAcc :=
  if sale.voided = some "true" then acc
  else
    let total := sale.calcTotal.getD 0
    if total ≤ 0 then acc
    else
      let acc1 := { acc with
        totalTransactions := acc.totalTransactions + 1
        channels := bumpChannel acc.channels (classifyChannel sale)
        hourly := bumpHour acc.hourly sale.completeHour }
      sale.saleLines.toList.foldl lineStep acc1

/-- `hourly.indexOf(Math.max(...hourly))` (line 230). -/
def peakHourOf (hourly : List Nat) : Nat :=
  hourly.indexOf (hourly.foldr max 0)

/-- The metrics record returned by `getSalesMetrics` (lines 218-231),
without the `dateRange` label. -/
structure SalesMetrics where
  totalRevenue : ℚ
  totalCost : ℚ
  profit : ℚ
  profitMargin : ℚ
  totalTransactions : Nat
  totalItems : ℚ
  avgSale : ℚ
  avgItems : ℚ
  channels : List (String × Nat)
  hourly : List Nat
  peakHour : Nat
deriving DecidableEq

/-- `getSalesMetrics` (lines 170-232) applied to the already-fetched,
already-normalized sale list: the aggregation loop followed by the derived
fields (lines 213-216). -/
def getSalesMetricsOf (sales : List Sale) : SalesMetrics :=
  let acc := sales.foldl msStep initAcc
  let profit := acc.totalRevenue - acc.totalCost
  { totalRevenue := acc.totalRevenue
    totalCost := acc.totalCost
    profit := profit
    profitMargin := if acc.totalRevenue > 0 then (profit / acc.totalRevenue) * 100 else 0
    totalTransactions := acc.totalTransactions
    totalItems := acc.totalItems
    avgSale := if acc.totalTransactions > 0 then acc.totalRevenue / (acc.totalTransactions : ℚ) else 0
    avgItems := if acc.totalTransactions > 0 then acc.totalItems / (acc.totalTransactions : ℚ) else 0
    channels := acc.channels
    hourly := acc.hourly
    peakHour := peakHourOf acc.hourly }

/-- One entry of the `productSales` map in `getTopProducts`
(lines 147-157). -/
structure ProductEntry where
  itemId : String
  description : String
  quantity : ℚ
  revenue : ℚ
deriving DecidableEq

/-- Body of the inner `lines.forEach` of `getTopProducts` (lines 142-158):
create the entry on first encounter (description defaulted to "Unknown"),
then accumulate quantity and revenue. -/
def addLineTo : List ProductEntry → SaleLine → List ProductEntry
  | [], line =>
    [{ itemId := line.itemID
       description := line.itemDescription.getD "Unknown"
       quantity := line.unitQuantity.getD 0
       revenue := line.calcSubtotal.getD 0 }]
  | p :: rest, line =>
    if p.itemId = line.itemID then
      { p with
          quantity := p.quantity + line.unitQuantity.getD 0
          revenue := p.revenue + line.calcSubtotal.getD 0 } :: rest
    else p :: addLineTo rest line

/-- Body of the outer `sales.forEach` of `getTopProducts` (lines 134-160):
only the voided flag is checked, there is no transaction-total guard. -/
def tpStep (ps : List ProductEntry) (sale : Sale) : List ProductEntry :=
  if sale.voided = some "true" then ps
  else sale.saleLines.toList.foldl addLineTo ps

/-- The order implemented by the comparator `(a, b) => b.revenue - a.revenue`
(line 163): revenue descending. -/
def revDescending (a b : ProductEntry) : Prop := b.revenue ≤ a.revenue

instance : DecidableRel revDescending :=
  fun a b => inferInstanceAs (Decidable (b.revenue ≤ a.revenue))

instance : IsTotal ProductEntry revDescending :=
  ⟨fun a b => le_total b.revenue a.revenue⟩

instance : IsTrans ProductEntry revDescending :=
  ⟨fun _ _ _ h1 h2 => le_trans h2 h1⟩

/-- `getTopProducts` (lines 129-165) applied to the already-fetched sale
list: accumulate, `Object.values(...).sort((a,b) => b.revenue - a.revenue)
.slice(0, limit)`. -/
def getTopProducts (sales : List Sale) (limit : Nat) : List ProductEntry :=
  (List.insertionSort revDescending (sales.foldl tpStep [])).take limit

/-- The `changes` record of `getComparison` (lines 308-316). -/
structure Changes where
  revenue : ℚ
  transactions : ℚ
  avgSale : ℚ
deriving DecidableEq

/-- The delta computation of `getComparison` (lines 300-315): percentage
change guarded by a positive previous baseline, absolute change for the
average sale. -/
def comparisonChanges (current previous : SalesMetrics) : Changes :=
  { revenue :=
      if previous.totalRevenue > 0 then
        ((current.totalRevenue - previous.totalRevenue) / previous.totalRevenue) * 100
      else 0
    transactions :=
      if previous.totalTransactions > 0 then
        (((current.totalTransactions : ℚ) - (previous.totalTransactions : ℚ)) /
          (previous.totalTransactions : ℚ)) * 100
      else 0
    avgSale := current.avgSale - previous.avgSale }

/-- The result record of `getComparison`. -/
structure Comparison where
  current : SalesMetrics
  previous : SalesMetrics
  changes : Changes
deriving DecidableEq

/-- `getComparison(period)` (lines 286-317).  `fetch daysAgo daysSpan` is
the normalized sale list for that window.  For a period other than the
three recognized values, `current` and `previous` stay `undefined` in the
source and the read `previous.totalRevenue` throws a TypeError; that
failure is embedded as `none`. -/
def getComparison (fetch : Nat → Nat → List Sale) (period : String) : Option Comparison :=
  if period = "daily" then
    let current := getSalesMetricsOf (fetch 0 1)
    let previous := getSalesMetricsOf (fetch 1 1)
    some { current := current, previous := previous,
           changes := comparisonChanges current previous }
  else if period = "weekly" then
    let current := getSalesMetricsOf (fetch 0 7)
    let previous := getSalesMetricsOf (fetch 7 7)
    some { current := current, previous := previous,
           changes := comparisonChanges current previous }
  else if period = "monthly" then
    let current := getSalesMetricsOf (fetch 0 30)
    let previous := getSalesMetricsOf (fetch 30 30)
    some { current := current, previous := previous,
           changes := comparisonChanges current previous }
  else none

end Lightspeed

namespace Lightspeed

theorem foldl_hold {σ α : Type} (P : σ → Prop) (step : σ → α → σ)
    (h : ∀ s a, P s → P (step s a)) :
    ∀ (l : List α) (s : σ), P s → P (l.foldl step s)
  | [], _, hs => hs
  | a :: l, s, hs => foldl_hold P step h l (step s a) (h s a hs)

theorem foldl_filter_of_id {σ α : Type} (step : σ → α → σ) (p : α → Bool)
    (h : ∀ s a, p a = false → step s a = s) :
    ∀ (l : List α) (s : σ), (l.filter p).foldl step s = l.foldl step s := by
  intro l
  induction l with
  | nil => intro s; rfl
  | cons a t ih =>
    intro s
    by_cases hp : p a = true
    · simp only [List.filter_cons, hp, if_true, List.foldl_cons]
      exact ih (step s a)
    · have hf : p a = false := by simpa using hp
      simp only [List.filter_cons, hf, Bool.false_eq_true, if_false, List.foldl_cons]
      rw [ih s, h s a hf]

theorem bumpChannel_snd_sum (cs : List (String × Nat)) (c : String) :
    ((bumpChannel cs c).map Prod.snd).sum = (cs.map Prod.snd).sum + 1 := by
  induction cs with
  | nil => simp [bumpChannel]
  | cons kn rest ih =>
    obtain ⟨k, n⟩ := kn
    by_cases h : k = c
    · simp only [bumpChannel, h, if_true, List.map_cons, List.sum_cons]
      omega
    · simp only [bumpChannel, h, if_false, List.map_cons, List.sum_cons, ih]
      omega

theorem sum_set_getD_succ : ∀ (l : List Nat) (i : Nat), i < l.length →
    (l.set i (l.getD i 0 + 1)).sum = l.sum + 1
  | [], i, h => absurd h (by simp)
  | a :: t, 0, _ => by simp only [List.getD_cons_zero, List.set_cons_zero, List.sum_cons]; omega
  | a :: t, i + 1, h => by
    have ih := sum_set_getD_succ t i (by simpa using h)
    simp only [List.getD_cons_succ, List.set_cons_succ, List.sum_cons]
    omega

theorem length_bumpHour (l : List Nat) (h : Fin 24) :
    (bumpHour l h).length = l.length := by
  simp [bumpHour]

theorem sum_bumpHour (l : List Nat) (h : Fin 24) (hl : l.length = 24) :
    (bumpHour l h).sum = l.sum + 1 := by
  have : h.val < l.length := by rw [hl]; exact h.isLt
  exact sum_set_getD_succ l h.val this

theorem lineStep_fold_fixed (lines : List SaleLine) (acc : MetricsAcc) :
    (lines.foldl lineStep acc).totalTransactions = acc.totalTransactions ∧
    (lines.foldl lineStep acc).channels = acc.channels ∧
    (lines.foldl lineStep acc).hourly = acc.hourly := by
  induction lines generalizing acc with
  | nil => exact ⟨rfl, rfl, rfl⟩
  | cons a t ih =>
    simpa only [List.foldl_cons, lineStep] using ih (lineStep acc a)

def accInv (acc : MetricsAcc) : Prop :=
  acc.hourly.length = 24 ∧ acc.hourly.sum = acc.totalTransactions ∧
    (acc.channels.map Prod.snd).sum = acc.totalTransactions

theorem accInv_init : accInv initAcc := by
  refine ⟨by simp [initAcc], ?_, by simp [initAcc]⟩
  simp [initAcc, List.sum_replicate]

theorem accInv_msStep (acc : MetricsAcc) (s : Sale) (h : accInv acc) :
    accInv (msStep acc s) := by
  unfold msStep
  by_cases hv : s.voided = some "true"
  · simpa [hv] using h
  · simp only [hv, if_false]
    by_cases ht : s.calcTotal.getD 0 ≤ 0
    · simpa [ht] using h
    · simp only [ht, if_false]
      obtain ⟨h1, h2, h3⟩ := h
      obtain ⟨f1, f2, f3⟩ := lineStep_fold_fixed s.saleLines.toList
        { acc with
          totalTransactions := acc.totalTransactions + 1
          channels := bumpChannel acc.channels (classifyChannel s)
          hourly := bumpHour acc.hourly s.completeHour }
      refine ⟨?_, ?_, ?_⟩
      · rw [f3]
        show (bumpHour acc.hourly s.completeHour).length = 24
        rw [length_bumpHour]; exact h1
      · rw [f3, f1]
        show (bumpHour acc.hourly s.completeHour).sum = acc.totalTransactions + 1
        rw [sum_bumpHour _ _ h1, h2]
      · rw [f2, f1]
        show ((bumpChannel acc.channels (classifyChannel s)).map Prod.snd).sum =
          acc.totalTransactions + 1
        rw [bumpChannel_snd_sum, h3]

theorem accInv_fold (sales : List Sale) : accInv (sales.foldl msStep initAcc) :=
  foldl_hold accInv msStep accInv_msStep sales initAcc accInv_init

theorem le_foldr_max (l : List Nat) : ∀ x ∈ l, x ≤ l.foldr max 0 := by
  induction l with
  | nil => simp
  | cons a t ih =>
    intro x hx
    rcases List.mem_cons.mp hx with rfl | hm
    · exact le_max_left _ _
    · exact le_trans (ih x hm) (le_max_right _ _)

theorem foldr_max_mem (l : List Nat) (h : l ≠ []) : l.foldr max 0 ∈ l := by
  induction l with
  | nil => exact absurd rfl h
  | cons a t ih =>
    cases t with
    | nil => simp
    | cons b u =>
      rcases max_choice a ((b :: u).foldr max 0) with h1 | h1
      · simp only [List.foldr_cons] at h1 ⊢
        rw [h1]; exact List.mem_cons_self _ _
      · simp only [List.foldr_cons] at h1 ⊢
        rw [h1]
        exact List.mem_cons_of_mem _ (ih (by simp))

theorem getD_ne_of_lt_indexOf :
    ∀ (l : List Nat) (a j : Nat), j < l.indexOf a → l.getD j 0 ≠ a
  | [], a, j, h => by simp [List.indexOf] at h
  | b :: t, a, j, h => by
    by_cases hb : b = a
    · rw [List.indexOf_cons] at h
      simp [hb] at h
    · have hbeq : (b == a) = false := by simpa using hb
      rw [List.indexOf_cons, hbeq, cond_false] at h
      cases j with
      | zero => simpa using hb
      | succ j => exact getD_ne_of_lt_indexOf t a j (by omega)

theorem getD_indexOf_foldr_max (l : List Nat) (h : l ≠ []) :
    l.getD (peakHourOf l) 0 = l.foldr max 0 := by
  have hm : l.foldr max 0 ∈ l := foldr_max_mem l h
  have hlt : l.indexOf (l.foldr max 0) < l.length := List.indexOf_lt_length.mpr hm
  rw [peakHourOf, List.getD_eq_getElem l 0 hlt, List.getElem_indexOf hlt]


def c1Line : SaleLine :=
  { itemID := "101", unitQuantity := some 1, calcSubtotal := some 50,
    fifoCost := some 20, avgCost := none, itemDescription := some "Widget" }

def c1Sale : Sale :=
  { voided := some "false", calcTotal := some 0, completeHour := 10,
    customer := none, saleLines := .single c1Line }

def c3Line : SaleLine :=
  { itemID := "7", unitQuantity := some 1, calcSubtotal := some 30,
    fifoCost := some 10, avgCost := none, itemDescription := some "Bottle" }

def c3Sale : Sale :=
  { voided := none, calcTotal := some 30, completeHour := 9,
    customer := none, saleLines := .single c3Line }

def c4Sale : Sale :=
  { voided := none, calcTotal := some 25, completeHour := 13,
    customer := none, saleLines := .missing }

/-- C9: the hourly distribution always has 24 buckets, and the transaction
count equals both the sum of the channel-mix counts and the sum of the
hourly bucket counts. -/
theorem C9_totals_consistency (sales : List Sale) :
    (getSalesMetricsOf sales).hourly.length = 24 ∧
    (getSalesMetricsOf sales).totalTransactions =
      ((getSalesMetricsOf sales).channels.map Prod.snd).sum ∧
    (getSalesMetricsOf sales).totalTransactions = (getSalesMetricsOf sales).hourly.sum := by
  obtain ⟨h1, h2, h3⟩ := accInv_fold sales
  exact ⟨h1, h3.symm, h2.symm⟩

/-- C4: the peak hour is the lowest index of the 24-element hourly array
attaining the maximum value, and on hourly counts [5, 5, 0, ..., 0] the
peak hour is 0. -/
theorem C4_peak_hour_lowest_max :
    (∀ sales : List Sale,
      (getSalesMetricsOf sales).peakHour < 24 ∧
      (∀ j : Nat, (getSalesMetricsOf sales).hourly.getD j 0 ≤
          (getSalesMetricsOf sales).hourly.getD (getSalesMetricsOf sales).peakHour 0) ∧
      (∀ j : Nat, j < (getSalesMetricsOf sales).peakHour →
          (getSalesMetricsOf sales).hourly.getD j 0 <
          (getSalesMetricsOf sales).hourly.getD (getSalesMetricsOf sales).peakHour 0)) ∧
    peakHourOf (5 :: 5 :: List.replicate 22 0) = 0 := by
  constructor
  · intro sales
    obtain ⟨hlen, -, -⟩ := accInv_fold sales
    set l := (sales.foldl msStep initAcc).hourly with hl
    have hne : l ≠ [] := by
      intro he; rw [he] at hlen; simp at hlen
    have hpeak : (getSalesMetricsOf sales).peakHour = peakHourOf l := rfl
    have hhl : (getSalesMetricsOf sales).hourly = l := rfl
    have hmem : l.foldr max 0 ∈ l := foldr_max_mem l hne
    have hidx : l.indexOf (l.foldr max 0) < l.length := List.indexOf_lt_length.mpr hmem
    have hgd : l.getD (peakHourOf l) 0 = l.foldr max 0 := getD_indexOf_foldr_max l hne
    refine ⟨?_, ?_, ?_⟩
    · rw [hpeak, peakHourOf]
      omega
    · intro j
      rw [hhl, hpeak, hgd]
      by_cases hj : j < l.length
      · rw [List.getD_eq_getElem l 0 hj]
        exact le_foldr_max l _ (List.getElem_mem hj)
      · rw [List.getD_eq_default l 0 (by omega)]
        exact Nat.zero_le _
    · intro j hjp
      rw [hhl, hpeak, hgd]
      rw [hpeak, peakHourOf] at hjp
      have hj : j < l.length := lt_trans hjp hidx
      have hne2 : l.getD j 0 ≠ l.foldr max 0 := getD_ne_of_lt_indexOf l _ j hjp
      have hle : l.getD j 0 ≤ l.foldr max 0 := by
        rw [List.getD_eq_getElem l 0 hj]
        exact le_foldr_max l _ (List.getElem_mem hj)
      exact lt_of_le_of_ne hle hne2
  · decide

/-- C4 witness: a single sale completed at hour 13 has peak hour below 24,
hour 5 is bounded by the peak bucket, and the strict-tie-breaking bound
applies at hour 0. -/
theorem C4_peak_hour_lowest_max_witness :
    (getSalesMetricsOf [c4Sale]).peakHour < 24 ∧
    (getSalesMetricsOf [c4Sale]).hourly.getD 5 0 ≤
      (getSalesMetricsOf [c4Sale]).hourly.getD (getSalesMetricsOf [c4Sale]).peakHour 0 ∧
    (getSalesMetricsOf [c4Sale]).hourly.getD 0 0 <
      (getSalesMetricsOf [c4Sale]).hourly.getD (getSalesMetricsOf [c4Sale]).peakHour 0 :=
  ⟨(C4_peak_hour_lowest_max.1 [c4Sale]).1,
   (C4_peak_hour_lowest_max.1 [c4Sale]).2.1 5,
   (C4_peak_hour_lowest_max.1 [c4Sale]).2.2 0 (by decide)⟩


/-- C2: filtering out every voided transaction before aggregation changes
neither the sales metrics nor the top-product ranking: voided transactions
contribute to no aggregate. -/
theorem C2_voided_contribute_nothing (sales : List Sale) (limit : Nat) :
    getSalesMetricsOf (sales.filter (fun s => !(s.voided == some "true"))) =
      getSalesMetricsOf sales ∧
    getTopProducts (sales.filter (fun s => !(s.voided == some "true"))) limit =
      getTopProducts sales limit := by
  have hid1 : ∀ (acc : MetricsAcc) (s : Sale),
      (!(s.voided == some "true")) = false → msStep acc s = acc := by
    intro acc s hs
    have hv : s.voided = some "true" := by
      simpa [Bool.not_eq_false, beq_iff_eq] using hs
    simp [msStep, hv]
  have hid2 : ∀ (ps : List ProductEntry) (s : Sale),
      (!(s.voided == some "true")) = false → tpStep ps s = ps := by
    intro ps s hs
    have hv : s.voided = some "true" := by
      simpa [Bool.not_eq_false, beq_iff_eq] using hs
    simp [tpStep, hv]
  constructor
  · unfold getSalesMetricsOf
    rw [foldl_filter_of_id msStep _ hid1 sales initAcc]
  · unfold getTopProducts
    rw [foldl_filter_of_id tpStep _ hid2 sales []]

/-- C1 counterexample: a non-voided sale with total 0 carrying a line item
of subtotal 50 (cost 20, quantity 1) contributes nothing at all to
`getSalesMetrics`: contrary to the claim, its line items are NOT
accumulated, because the `total <= 0` early return exits the whole
`forEach` callback before the line-item loop. -/
theorem C1_counterexample :
    (getSalesMetricsOf [c1Sale]).totalRevenue ≠ 50 ∧
    (getSalesMetricsOf [c1Sale]).totalRevenue = 0 ∧
    (getSalesMetricsOf [c1Sale]).totalCost = 0 ∧
    (getSalesMetricsOf [c1Sale]).totalItems = 0 ∧
    (getSalesMetricsOf [c1Sale]).totalTransactions = 0 := by
  refine ⟨?_, ?_, ?_, ?_, ?_⟩ <;>
    simp [getSalesMetricsOf, msStep, initAcc, c1Sale]

/-- C1 amended: a transaction with non-positive total is excluded from every
aggregate of `getSalesMetrics` -- transaction count, channel mix, hourly
distribution, and also the revenue / cost / item accumulation, since the
total guard exits the callback before the line-item loop.  Dropping all
such transactions from the input leaves the output unchanged. -/
theorem C1_amended_nonpositive_total_excluded (sales : List Sale) :
    getSalesMetricsOf (sales.filter (fun s => decide (0 < s.calcTotal.getD 0))) =
      getSalesMetricsOf sales := by
  have hid : ∀ (acc : MetricsAcc) (s : Sale),
      (decide (0 < s.calcTotal.getD 0)) = false → msStep acc s = acc := by
    intro acc s hs
    have ht : s.calcTotal.getD 0 ≤ 0 := le_of_not_lt (of_decide_eq_false hs)
    by_cases hv : s.voided = some "true"
    · simp [msStep, hv]
    · simp [msStep, hv, ht]
  unfold getSalesMetricsOf
  rw [foldl_filter_of_id msStep _ hid sales initAcc]

/-- C3 counterexample: on a single sale with revenue 30 and cost 10 the
stored profitMargin is 200/3 (a percentage), not profit / revenue = 2/3:
the source multiplies by 100. -/
theorem C3_counterexample :
    (getSalesMetricsOf [c3Sale]).profitMargin ≠
      (getSalesMetricsOf [c3Sale]).profit / (getSalesMetricsOf [c3Sale]).totalRevenue ∧
    (getSalesMetricsOf [c3Sale]).profitMargin = 200 / 3 := by
  constructor <;>
    · simp [getSalesMetricsOf, msStep, lineStep, initAcc, c3Sale, c3Line, JsArr.toList]
      norm_num

/-- C3 amended: profitMargin equals profit divided by totalRevenue times
100 (a percentage) when totalRevenue is positive, and is exactly 0 when
totalRevenue is 0; in the rational-number embedding no NaN or infinity can
arise, the zero branch never divides. -/
theorem C3_amended_profit_margin (sales : List Sale) :
    (0 < (getSalesMetricsOf sales).totalRevenue →
      (getSalesMetricsOf sales).profitMargin =
        (getSalesMetricsOf sales).profit / (getSalesMetricsOf sales).totalRevenue * 100) ∧
    ((getSalesMetricsOf sales).totalRevenue = 0 →
      (getSalesMetricsOf sales).profitMargin = 0) := by
  unfold getSalesMetricsOf
  constructor
  · intro h
    simp only at h ⊢
    rw [if_pos h]
  · intro h
    simp only at h ⊢
    rw [h]
    simp

/-- C3 amended witness: the percentage formula holds on the concrete
single-sale window with revenue 30 and the zero case on the empty window. -/
theorem C3_amended_profit_margin_witness :
    (getSalesMetricsOf [c3Sale]).profitMargin =
      (getSalesMetricsOf [c3Sale]).profit / (getSalesMetricsOf [c3Sale]).totalRevenue * 100 ∧
    (getSalesMetricsOf []).profitMargin = 0 :=
  ⟨(C3_amended_profit_margin [c3Sale]).1 (by
      simp [getSalesMetricsOf, msStep, lineStep, initAcc, c3Sale, c3Line, JsArr.toList]
      norm_num),
   (C3_amended_profit_margin []).2 rfl⟩

/-- C5: the percentage deltas of the Comparator follow the formula
(current - previous) / previous * 100 when the previous value is positive
and are exactly 0 when the previous value is 0; in the rational-number
embedding no infinity or NaN can arise, the zero branch never divides. -/
theorem C5_delta_formula (current previous : SalesMetrics) :
    (0 < previous.totalRevenue →
      (comparisonChanges current previous).revenue =
        (current.totalRevenue - previous.totalRevenue) / previous.totalRevenue * 100) ∧
    (previous.totalRevenue = 0 → (comparisonChanges current previous).revenue = 0) ∧
    (0 < previous.totalTransactions →
      (comparisonChanges current previous).transactions =
        ((current.totalTransactions : ℚ) - (previous.totalTransactions : ℚ)) /
          (previous.totalTransactions : ℚ) * 100) ∧
    (previous.totalTransactions = 0 →
      (comparisonChanges current previous).transactions = 0) := by
  refine ⟨fun h => ?_, fun h => ?_, fun h => ?_, fun h => ?_⟩ <;>
    simp [comparisonChanges, h]

/-- C5 witness: the formula cases realized on concrete windows -- a
previous window with revenue 30 and one transaction, and an empty previous
window with zero revenue and zero transactions. -/
theorem C5_delta_formula_witness :
    (comparisonChanges (getSalesMetricsOf [c4Sale]) (getSalesMetricsOf [c3Sale])).revenue =
      ((getSalesMetricsOf [c4Sale]).totalRevenue - (getSalesMetricsOf [c3Sale]).totalRevenue) /
        (getSalesMetricsOf [c3Sale]).totalRevenue * 100 ∧
    (comparisonChanges (getSalesMetricsOf [c3Sale]) (getSalesMetricsOf [])).revenue = 0 ∧
    (comparisonChanges (getSalesMetricsOf [c4Sale]) (getSalesMetricsOf [c3Sale])).transactions =
      (((getSalesMetricsOf [c4Sale]).totalTransactions : ℚ) -
        ((getSalesMetricsOf [c3Sale]).totalTransactions : ℚ)) /
        ((getSalesMetricsOf [c3Sale]).totalTransactions : ℚ) * 100 ∧
    (comparisonChanges (getSalesMetricsOf [c3Sale]) (getSalesMetricsOf [])).transactions = 0 :=
  ⟨(C5_delta_formula _ _).1 (by
      simp [getSalesMetricsOf, msStep, lineStep, initAcc, c3Sale, c3Line, JsArr.toList]
      norm_num),
   (C5_delta_formula _ _).2.1 rfl,
   (C5_delta_formula _ _).2.2.1 (by
      simp [getSalesMetricsOf, msStep, lineStep, initAcc, c3Sale, c3Line, JsArr.toList]
      norm_num),
   (C5_delta_formula _ _).2.2.2 rfl⟩


def doordashSale : Sale :=
  { voided := none, calcTotal := some 20, completeHour := 12,
    customer := some { firstName := some "DoorDash", lastName := some "Orders" },
    saleLines := .missing }

def uberSale : Sale :=
  { voided := none, calcTotal := some 20, completeHour := 12,
    customer := some { firstName := some "Uber", lastName := some "Eats" },
    saleLines := .missing }

def grubSale : Sale :=
  { voided := none, calcTotal := some 20, completeHour := 12,
    customer := some { firstName := some "GrubHub", lastName := some "Delivery" },
    saleLines := .missing }

def citySale : Sale :=
  { voided := none, calcTotal := some 20, completeHour := 12,
    customer := some { firstName := some "CityHive", lastName := none },
    saleLines := .missing }

def janeSale : Sale :=
  { voided := none, calcTotal := some 20, completeHour := 12,
    customer := some { firstName := some "Jane", lastName := some "Doe" },
    saleLines := .missing }

def noCustomerSale : Sale :=
  { voided := none, calcTotal := some 5, completeHour := 8,
    customer := none, saleLines := .missing }

/-- C6: channel classification -- no customer is In-Store; a customer whose
case-folded full name matches none of the platform substrings (and whose
first name is not "doordash") is In-Store; the four platforms are
recognized by substring, in particular "DoorDash Orders" classifies as
DoorDash, "Uber Eats" as UberEats, "GrubHub Delivery" as GrubHub and
"CityHive" as CityHive. -/
theorem C6_classify_channel :
    (∀ s : Sale, s.customer = none → classifyChannel s = "In-Store") ∧
    (∀ (s : Sale) (c : Customer), s.customer = some c →
      jsIncludes (jsTrim (jsToLower (c.firstName.getD "") ++ " " ++
        jsToLower (c.lastName.getD ""))) "ubereats" = false →
      jsIncludes (jsTrim (jsToLower (c.firstName.getD "") ++ " " ++
        jsToLower (c.lastName.getD ""))) "uber eats" = false →
      jsIncludes (jsTrim (jsToLower (c.firstName.getD "") ++ " " ++
        jsToLower (c.lastName.getD ""))) "doordash" = false →
      (jsToLower (c.firstName.getD "") == "doordash") = false →
      jsIncludes (jsTrim (jsToLower (c.firstName.getD "") ++ " " ++
        jsToLower (c.lastName.getD ""))) "grubhub" = false →
      jsIncludes (jsTrim (jsToLower (c.firstName.getD "") ++ " " ++
        jsToLower (c.lastName.getD ""))) "cityhive" = false →
      classifyChannel s = "In-Store") ∧
    classifyChannel doordashSale = "DoorDash" ∧
    classifyChannel uberSale = "UberEats" ∧
    classifyChannel grubSale = "GrubHub" ∧
    classifyChannel citySale = "CityHive" ∧
    classifyChannel janeSale = "In-Store" := by
  refine ⟨?_, ?_, by decide, by decide, by decide, by decide, by decide⟩
  · intro s hc
    simp [classifyChannel, hc]
  · intro s c hc h1 h2 h3 h4 h5 h6
    simp [classifyChannel, hc, h1, h2, h3, h4, h5, h6]

/-- C6 witness: the no-customer case and the no-match case realized on
concrete sales. -/
theorem C6_classify_channel_witness :
    classifyChannel noCustomerSale = "In-Store" ∧
    classifyChannel janeSale = "In-Store" :=
  ⟨C6_classify_channel.1 noCustomerSale rfl,
   C6_classify_channel.2.1 janeSale { firstName := some "Jane", lastName := some "Doe" }
     rfl (by decide) (by decide) (by decide) (by decide) (by decide) (by decide)⟩

def c7LineA : SaleLine :=
  { itemID := "A", unitQuantity := some 2, calcSubtotal := some 50,
    fifoCost := none, avgCost := none, itemDescription := some "Alpha" }

def c7LineB : SaleLine :=
  { itemID := "B", unitQuantity := some 3, calcSubtotal := some 120,
    fifoCost := none, avgCost := none, itemDescription := some "Beta" }

def c7LineC : SaleLine :=
  { itemID := "C", unitQuantity := some 4, calcSubtotal := some 80,
    fifoCost := none, avgCost := none, itemDescription := some "Gamma" }

/-- Two non-voided sales carrying items A (revenue 50), B (revenue 120) and
C (revenue 80).  Both have a non-positive (absent resp. zero) `calcTotal`,
so they also exercise the absence of a transaction-total filter in
`getTopProducts`. -/
def c7Sales : List Sale :=
  [ { voided := none, calcTotal := none, completeHour := 11, customer := none,
      saleLines := .collection [c7LineA, c7LineB] },
    { voided := some "false", calcTotal := some 0, completeHour := 12, customer := none,
      saleLines := .single c7LineC } ]

def c7EntryB : ProductEntry :=
  { itemId := "B", description := "Beta", quantity := 3, revenue := 120 }

def c7EntryC : ProductEntry :=
  { itemId := "C", description := "Gamma", quantity := 4, revenue := 80 }

/-- C7: getTopProducts returns at most N entries, sorted by accumulated
revenue descending; on items A (revenue 50), B (revenue 120), C (revenue
80) with N = 2 it returns [B, C] in that order, even though the carrying
transactions have non-positive totals (only the voided flag is checked). -/
theorem C7_top_products :
    (∀ (sales : List Sale) (limit : Nat),
      (getTopProducts sales limit).length ≤ limit ∧
      List.Sorted revDescending (getTopProducts sales limit)) ∧
    getTopProducts c7Sales 2 = [c7EntryB, c7EntryC] := by
  constructor
  · intro sales limit
    refine ⟨List.length_take_le _ _, ?_⟩
    exact List.Pairwise.sublist (List.take_sublist _ _)
      (List.sorted_insertionSort revDescending _)
  · decide

/-- C8: the shape normalization of the POS client always yields a list of sales: an
unwrapped single record becomes a one-element list, a collection is kept
as-is, an absent field becomes the empty list. -/
theorem C8_normalize_shapes (s : Sale) (l : List Sale) :
    normalizeSales (.single s) = [s] ∧
    normalizeSales (.collection l) = l ∧
    normalizeSales .missing = ([] : List Sale) :=
  ⟨rfl, rfl, rfl⟩

/-- The trivial fetch returning no sales for every window, used to witness
`getComparison` at concrete periods. -/
def emptyFetch : Nat → Nat → List Sale := fun _ _ => []

/-- C10: getComparison produces a result exactly for the periods "daily",
"weekly" and "monthly"; for every other period the source dereferences the
undefined `previous` and throws, embedded here as `none`. -/
theorem C10_comparison_period (period : String) (fetch : Nat → Nat → List Sale) :
    (getComparison fetch period).isSome = true ↔
      (period = "daily" ∨ period = "weekly" ∨ period = "monthly") := by
  unfold getComparison
  by_cases h1 : period = "daily" <;> by_cases h2 : period = "weekly" <;>
    by_cases h3 : period = "monthly" <;> simp [h1, h2, h3]

/-- C10 witness: a recognized and an unrecognized period realized
concretely. -/
theorem C10_comparison_period_witness :
    (getComparison emptyFetch "daily").isSome = true ∧
    (getComparison emptyFetch "hourly").isSome = false :=
  ⟨(C10_comparison_period "daily" emptyFetch).mpr (Or.inl rfl), by decide⟩

end Lightspeed
